import Mathlib

/-!
Verification of the stack-trace capture / chain / render subsystem of
isolated-vm (src/isolate/stack_trace.cc).

Strings: a v8 string is modelled as its sequence of characters
(`List Char`).  The C++ code reads strings through `String::Utf8Value`
and C string functions (`strchr`, `strlen`, `operator<<(const char*)`),
which stop at the first NUL byte; this is modelled explicitly by `cstr`
and `strchrNewline`.  The byte-level UTF-8 re-interpretation performed
by `String::NewFromOneByte` is modelled as the identity on characters,
which is exact for 7-bit ASCII content.

Contexts are identified by a `Nat`; liveness of a context at render
time is an external parameter `alive : Nat → Bool`.
-/

/-- Character sequence of a string literal. -/
def lit (s : String) : List Char := s.data

/-- The NUL character, terminator of C strings. -/
def nul : Char := Char.ofNat 0

/-- Reading a character buffer as a C string: everything up to the first
NUL.  Models `operator<<(const char*)` / `strlen` on a `Utf8Value`. -/
def cstr (l : List Char) : List Char := l.takeWhile (fun c => c != nul)

/-- Decimal rendering of an `int`, as `std::stringstream`s `operator<<`
produces it. -/
def intStr (n : Int) : List Char := (toString n).data

/-- One captured stack frame, with the metadata the renderer reads:
`v8::StackFrame::GetFunctionName` (empty when absent), `GetScriptName`,
`GetLineNumber`, `GetColumn`, `IsEval`, `GetScriptId`. -/
structure StackFrame where
  functionName : List Char
  scriptName : List Char
  lineNumber : Int
  column : Int
  isEval : Bool
  scriptId : Int
deriving DecidableEq, Repr

/-- Value of `v8::Message::kNoScriptIdInfo`. -/
def kNoScriptIdInfo : Int := 0

/-- Rendering of one frame by the loop body of
`StackTraceHolder::RenderSingleStack` (stack_trace.cc:144-161).  Named
strings are streamed as C strings (`*fn_name`, `*script_name`), while
the emptiness test uses `Utf8Value::length()` on the whole buffer. -/
def renderFrame (frame : StackFrame) : List Char :=
  if frame.isEval then
    if frame.scriptId = kNoScriptIdInfo then
      lit "\n    at [eval]:" ++ intStr frame.lineNumber ++ lit ":" ++ intStr frame.column
    else
      lit "\n    at [eval] (" ++ cstr frame.scriptName ++ lit ":" ++
        intStr frame.lineNumber ++ lit ":" ++ intStr frame.column
  else
    if frame.functionName.length = 0 then
      lit "\n    at " ++ cstr frame.scriptName ++ lit ":" ++
        intStr frame.lineNumber ++ lit ":" ++ intStr frame.column
    else
      lit "\n    at " ++ cstr frame.functionName ++ lit " (" ++ cstr frame.scriptName ++
        lit ":" ++ intStr frame.lineNumber ++ lit ":" ++ intStr frame.column ++ lit ")"

/-- `StackTraceHolder::RenderSingleStack` (stack_trace.cc:139-164): the
frame loop appending each rendered frame to a `stringstream`. -/
def RenderSingleStack (frames : List StackFrame) : List Char :=
  frames.foldl (fun ss frame => ss ++ renderFrame frame) []

/-- A capture: an opaque snapshot of the call stack taken inside one
context (`v8::StackTrace`), together with the identity of the owning
context, to whose lifetime the snapshot's validity is tied. -/
structure Capture where
  ctx : Nat
  frames : List StackFrame
deriving DecidableEq, Repr

/-- The value stored in the private chain-data slot of an error.
`strV` is a plain string, `pairV` the two-element `Array` built by
`ChainStack` (index 0 = the newer capture, index 1 = the older data),
`holderV` a `StackTraceHolder` wrapping a capture.  `undef` is the
`undefined` an unset private slot reads as, and `malformed` stands for
any other value (external tampering). -/
inductive ChainData where
  | strV (s : List Char)
  | pairV (elem0 elem1 : ChainData)
  | holderV (cap : Capture)
  | undef
  | malformed
deriving DecidableEq, Repr

/-- Tests `c_str[0] == ' ' && c_str[1] == ' ' && c_str[2] == ' ' &&
c_str[3] == ' '` of stack_trace.cc:36; an index at or past the end of
the string reads the NUL terminator of the C buffer, so a string of
fewer than four characters never passes. -/
def startsWithFourSpaces (s : List Char) : Bool :=
  s.getD 0 nul == ' ' && s.getD 1 nul == ' ' && s.getD 2 nul == ' ' && s.getD 3 nul == ' '

/-- The `strchr(c_str, '\n')` call of stack_trace.cc:40: the suffix
starting at the first newline, or `none` when the scan hits the C
string terminator first. -/
def strchrNewline : List Char → Option (List Char)
  | [] => none
  | c :: cs =>
    if c = nul then none
    else if c = '\n' then some (c :: cs)
    else strchrNewline cs

/-- The `IsString` case of `RenderErrorStack` (stack_trace.cc:30-46):
pass the string through when it already starts with four spaces of
indentation, otherwise slice from the first newline
(`String::NewFromOneByte` reads the tail up to the next NUL), and
render an empty string when there is no newline. -/
def renderStringData (s : List Char) : List Char :=
  if startsWithFourSpaces s then s
  else
    match strchrNewline s with
    | none => []
    | some tail => cstr tail

/-- The boundary line literal of stack_trace.cc:54. -/
def boundaryMarker : List Char := lit "\n    at (<isolated-vm boundary>)"

/-- Modelled from the spec: dereferencing a `StackTraceHolder` whose
owning context has been destroyed (the `Deref(that.stack_trace)` of
stack_trace.cc:61; the `RemoteHandle` machinery is declared in
stack_trace.h / remote_handle.h, not part of the sources here) renders
that segment as the empty string instead of failing. -/
def renderCapture (alive : Nat → Bool) (cap : Capture) : List Char :=
  if alive cap.ctx then RenderSingleStack cap.frames else []

/-- Modelled from the spec: a slot value that is neither a string, nor
the array pair, nor a `StackTraceHolder` (the fall-through branch of
stack_trace.cc:58-63 whose `ClassHandle::Unwrap` is not part of the
sources here) is tolerated and renders as the empty string. -/
def renderNonChainValue : List Char := []

/-- `RenderErrorStack` (stack_trace.cc:28-64): renders a string by
`renderStringData`, an array pair as older data (index 1), then the
boundary marker, then the newer data (index 0), and a holder through
its capture. -/
def RenderErrorStack (alive : Nat → Bool) : ChainData → List Char
  | ChainData.strV s => renderStringData s
  | ChainData.pairV elem0 elem1 =>
      RenderErrorStack alive elem1 ++ boundaryMarker ++ RenderErrorStack alive elem0
  | ChainData.holderV cap => renderCapture alive cap
  | ChainData.undef => renderNonChainValue
  | ChainData.malformed => renderNonChainValue

/-- The pre-existing value of the plain `"stack"` property of an error,
as `error->Get(context, "stack")` observes it in `ChainStack`
(stack_trace.cc:125): a string, `undefined`, or some other value. -/
inductive StackProperty where
  | strP (s : List Char)
  | undefP
  | otherP
deriving DecidableEq, Repr

/-- Values of `v8::PropertyAttribute`, a bit set. -/
def propReadOnly : Nat := 1

/-- DontEnum bit of `v8::PropertyAttribute`. -/
def propDontEnum : Nat := 2

/-- DontDelete bit of `v8::PropertyAttribute`. -/
def propDontDelete : Nat := 4

/-- The accessor installed on the `"stack"` property by
`error->SetAccessor` (stack_trace.cc:92-99): whether a setter callback
was supplied and the `PropertyAttribute` bit set passed. -/
structure StackAccessor where
  hasSetter : Bool
  attributes : Nat
deriving DecidableEq, Repr

/-- An accessor property is enumerable unless DontEnum is set. -/
def StackAccessor.enumerable (a : StackAccessor) : Bool :=
  a.attributes &&& propDontEnum == 0

/-- An accessor property is configurable (deletable / redefinable)
unless DontDelete is set. -/
def StackAccessor.configurable (a : StackAccessor) : Bool :=
  a.attributes &&& propDontDelete == 0

/-- The state of one error object, as this subsystem observes and
mutates it: its constructor name and current message (both read at
`"stack"`-getter time), the private chain-data slot keyed by
`GetPrivateStackSymbol`, the native stack trace
`Exception::GetStackTrace` may still associate with it, the
pre-existing plain `"stack"` property, and the accessor this subsystem
may have installed over `"stack"`. -/
structure ErrorState where
  constructorName : List Char
  message : List Char
  slot : ChainData
  nativeStack : Option Capture
  stackProp : StackProperty
  stackAccessor : Option StackAccessor
deriving DecidableEq, Repr

/-- Does the given accessor description satisfy a predicate?  `false`
when no accessor is installed. -/
def accessorSatisfies (e : ErrorState) (p : StackAccessor → Bool) : Bool :=
  match e.stackAccessor with
  | some a => p a
  | none => false

/-- `AttachStackGetter` (stack_trace.cc:89-100): store the chain data in
the private slot and define the `"stack"` accessor in the same step.
The source passes getter `ErrorStackGetter`, setter `nullptr`, and
attributes `PropertyAttribute::DontEnum`. -/
def AttachStackGetter (e : ErrorState) (data : ChainData) : ErrorState :=
  { e with
    slot := data
    stackAccessor := some { hasSetter := false, attributes := propDontEnum } }

/-- `StackTraceHolder::AttachStack` (stack_trace.cc:111-113): wrap the
capture in a holder and install it. -/
def AttachStack (e : ErrorState) (stack : Capture) : ErrorState :=
  AttachStackGetter e (ChainData.holderV stack)

/-- `StackTraceHolder::ChainStack` (stack_trace.cc:115-137).  When the
private slot is still `undefined`, fall back to the native stack trace
of the error, then to a plain string `"stack"` property, and attach the
capture alone when neither exists; otherwise build the two-element
array pair (index 0 = new capture holder, index 1 = older data) and
install it. -/
def ChainStack (e : ErrorState) (stack : Capture) : ErrorState :=
  match e.slot with
  | ChainData.undef =>
    match e.nativeStack with
    | none =>
      match e.stackProp with
      | StackProperty.strP s =>
          AttachStackGetter e
            (ChainData.pairV (ChainData.holderV stack) (ChainData.strV s))
      | _ => AttachStack e stack
    | some existing_stack =>
        AttachStackGetter e
          (ChainData.pairV (ChainData.holderV stack) (ChainData.holderV existing_stack))
  | existing_data =>
      AttachStackGetter e (ChainData.pairV (ChainData.holderV stack) existing_data)

/-- `ErrorStackGetter` (stack_trace.cc:69-84): at every read of the
`"stack"` property, concatenate the constructor name, the literal
`": "`, the current message, and the rendered chain data from the
private slot. -/
def ErrorStackGetter (alive : Nat → Bool) (e : ErrorState) : List Char :=
  e.constructorName ++ lit ": " ++ (e.message ++ RenderErrorStack alive e.slot)

/-- Sequential chaining of an error through a list of captures, oldest
first: one `ChainStack` call per context boundary crossing. -/
def chainAll (e : ErrorState) (caps : List Capture) : ErrorState :=
  caps.foldl ChainStack e

/-- An error that has never passed through this subsystem and carries no
native stack trace and no plain `"stack"` string. -/
def freshError (ctor msg : List Char) : ErrorState :=
  { constructorName := ctor
    message := msg
    slot := ChainData.undef
    nativeStack := none
    stackProp := StackProperty.undefP
    stackAccessor := none }

/-- Number of array pairs in a chain-data value; each pair contributes
exactly one boundary-marker line to the rendering. -/
def pairCount : ChainData → Nat
  | ChainData.pairV elem0 elem1 => pairCount elem0 + pairCount elem1 + 1
  | _ => 0

/-- Oldest-to-newest interleaving described by claim C1: the oldest
segment first, and every younger segment preceded by one
boundary-marker line. -/
def orderedJoin (segs : List (List Char)) : List Char :=
  match segs with
  | [] => []
  | seg :: rest => seg ++ (rest.map (fun t => boundaryMarker ++ t)).flatten

/-- Per-frame line exactly as claim C2 words it; the fourth case has no
space between the function name and the opening parenthesis. -/
def c2ClaimedFrameLine (f : StackFrame) : List Char :=
  lit "\n    at " ++
    (if f.isEval then
      if f.scriptId = kNoScriptIdInfo then
        lit "[eval]:" ++ intStr f.lineNumber ++ lit ":" ++ intStr f.column
      else
        lit "[eval] (" ++ f.scriptName ++ lit ":" ++ intStr f.lineNumber ++ lit ":" ++ intStr f.column
    else if f.functionName = [] then
      f.scriptName ++ lit ":" ++ intStr f.lineNumber ++ lit ":" ++ intStr f.column
    else
      f.functionName ++ lit "(" ++ f.scriptName ++ lit ":" ++ intStr f.lineNumber ++ lit ":" ++
        intStr f.column ++ lit ")")

/-- One line per frame, in original order, per claim C2. -/
def c2ClaimedRender (frames : List StackFrame) : List Char :=
  (frames.map c2ClaimedFrameLine).flatten

/-- Per-frame line of the amended claim C2: identical to the claimed
formatting except that the fourth case separates the function name from
the opening parenthesis with a space, as the code does. -/
def c2AmendedFrameLine (f : StackFrame) : List Char :=
  lit "\n    at " ++
    (if f.isEval then
      if f.scriptId = kNoScriptIdInfo then
        lit "[eval]:" ++ intStr f.lineNumber ++ lit ":" ++ intStr f.column
      else
        lit "[eval] (" ++ f.scriptName ++ lit ":" ++ intStr f.lineNumber ++ lit ":" ++ intStr f.column
    else if f.functionName = [] then
      f.scriptName ++ lit ":" ++ intStr f.lineNumber ++ lit ":" ++ intStr f.column
    else
      f.functionName ++ lit " (" ++ f.scriptName ++ lit ":" ++ intStr f.lineNumber ++ lit ":" ++
        intStr f.column ++ lit ")")

/-- One line per frame, in original order, per the amended claim C2. -/
def c2AmendedRender (frames : List StackFrame) : List Char :=
  (frames.map c2AmendedFrameLine).flatten

/-- String-case behaviour exactly as claim C3 words it: four leading
spaces pass the string through; otherwise the substring starting at the
first newline, or empty when the string has no newline. -/
def c3ClaimedRender (s : List Char) : List Char :=
  if s.take 4 = lit "    " then s
  else if '\n' ∈ s then s.dropWhile (fun c => c != '\n')
  else []

/-- Slot contents claim C4 predicts for a chain call on an error whose
slot is empty. -/
def c4ClaimedSlot (e : ErrorState) (c : Capture) : ChainData :=
  match e.nativeStack with
  | some ns => ChainData.pairV (ChainData.holderV c) (ChainData.holderV ns)
  | none =>
    match e.stackProp with
    | StackProperty.strP s => ChainData.pairV (ChainData.holderV c) (ChainData.strV s)
    | _ => ChainData.holderV c

/-- Accessor shape claim C7 asserts: non-enumerable, non-configurable,
and without a setter. -/
def c7ClaimedAccessor (a : StackAccessor) : Bool :=
  !a.enumerable && !a.configurable && !a.hasSetter

/-- Accessor shape of the amended claim C7: non-enumerable and without
a setter, but configurable (DontDelete is not set). -/
def c7AmendedAccessor (a : StackAccessor) : Bool :=
  !a.enumerable && a.configurable && !a.hasSetter

example : renderStringData (lit "Error: boom\n    at f (a.js:1:2)") = lit "\n    at f (a.js:1:2)" := by decide
example : renderStringData (lit "    pre-rendered") = lit "    pre-rendered" := by decide
example : renderStringData (lit "just a message") = [] := by decide
example :
    RenderSingleStack [⟨lit "foo", lit "a.js", 1, 2, false, 7⟩] = lit "\n    at foo (a.js:1:2)" := by
  decide
example :
    ErrorStackGetter (fun _ => true)
      (chainAll (freshError (lit "Error") (lit "boom"))
        [⟨0, [⟨lit "f", lit "a.js", 1, 2, false, 7⟩]⟩, ⟨1, [⟨lit "g", lit "b.js", 3, 4, false, 8⟩]⟩])
    = lit "Error: boom\n    at f (a.js:1:2)\n    at (<isolated-vm boundary>)\n    at g (b.js:3:4)" := by
  decide

/-- The stringstream loop of `RenderSingleStack` concatenates the
per-frame renderings in frame order. -/
theorem foldl_renderFrame (frames : List StackFrame) :
    ∀ acc : List Char,
      frames.foldl (fun ss frame => ss ++ renderFrame frame) acc
        = acc ++ (frames.map renderFrame).flatten := by
  induction frames with
  | nil => intro acc; simp
  | cons f fs ih => intro acc; simp [List.foldl_cons, ih (acc ++ renderFrame f)]

/-- `RenderSingleStack` as a map-and-flatten. -/
theorem RenderSingleStack_eq_flatten (frames : List StackFrame) :
    RenderSingleStack frames = (frames.map renderFrame).flatten := by
  simpa using foldl_renderFrame frames []

/-- Reading a NUL-free buffer as a C string is the identity. -/
theorem cstr_eq_self {l : List Char} (h : nul ∉ l) : cstr l = l := by
  simp only [cstr]
  simp
  intro x hx hxe
  exact h (hxe ▸ hx)

/-- A chain call on an error whose slot is already populated always
builds the pair over the existing slot value. -/
theorem ChainStack_slot_of_ne (e : ErrorState) (c : Capture)
    (h : e.slot ≠ ChainData.undef) :
    ChainStack e c
      = AttachStackGetter e (ChainData.pairV (ChainData.holderV c) e.slot) := by
  cases hs : e.slot <;> simp_all [ChainStack]

/-- Folding chain calls over an error whose slot is populated stacks
one pair per call, newest at the head. -/
theorem chainAll_slot_of_ne (caps : List Capture) :
    ∀ e : ErrorState, e.slot ≠ ChainData.undef →
      (chainAll e caps).slot
        = caps.foldl (fun d c => ChainData.pairV (ChainData.holderV c) d) e.slot := by
  induction caps with
  | nil => intro e _; rfl
  | cons c cs ih =>
    intro e h
    have h1 := ChainStack_slot_of_ne e c h
    have h2 : (ChainStack e c).slot = ChainData.pairV (ChainData.holderV c) e.slot := by
      rw [h1]; rfl
    have h3 : (ChainStack e c).slot ≠ ChainData.undef := by rw [h2]; intro hx; cases hx
    calc (chainAll e (c :: cs)).slot
        = (chainAll (ChainStack e c) cs).slot := by simp [chainAll]
      _ = cs.foldl (fun d c => ChainData.pairV (ChainData.holderV c) d) (ChainStack e c).slot :=
          ih (ChainStack e c) h3
      _ = (c :: cs).foldl (fun d c => ChainData.pairV (ChainData.holderV c) d) e.slot := by
          rw [h2]; rfl

/-- Rendering a right-leaning stack of pairs: the base renders first,
then one boundary marker and one capture per pair, oldest first. -/
theorem render_pairFold (alive : Nat → Bool) (caps : List Capture) :
    ∀ d : ChainData,
      RenderErrorStack alive (caps.foldl (fun d c => ChainData.pairV (ChainData.holderV c) d) d)
        = RenderErrorStack alive d
            ++ (caps.map (fun c => boundaryMarker ++ renderCapture alive c)).flatten := by
  induction caps with
  | nil => intro d; simp
  | cons c cs ih =>
    intro d
    simp only [List.foldl_cons, ih, List.map_cons, List.flatten_cons]
    simp [RenderErrorStack]

/-- Each chain call on a populated slot adds exactly one pair. -/
theorem pairCount_fold (caps : List Capture) :
    ∀ d : ChainData,
      pairCount (caps.foldl (fun d c => ChainData.pairV (ChainData.holderV c) d) d)
        = pairCount d + caps.length := by
  induction caps with
  | nil => intro d; simp
  | cons c cs ih =>
    intro d
    simp [List.foldl_cons, ih, pairCount]
    omega

/-- The first chain call on a fresh error attaches the capture alone. -/
theorem ChainStack_fresh (ctor msg : List Char) (c : Capture) :
    (ChainStack (freshError ctor msg) c).slot = ChainData.holderV c := rfl

/-- C1: chaining an error across N contexts (N at least 2) by
sequential `ChainStack` calls and then rendering the resulting chain
produces the captured segments in strict oldest-to-newest order — the
first capture's frames first, the most recent capture last — with
exactly N−1 boundary-marker insertions, one pair node per boundary. -/
theorem c1_chain_render_ordered (ctor msg : List Char) (alive : Nat → Bool)
    (caps : List Capture) (h : 2 ≤ caps.length) :
    RenderErrorStack alive (chainAll (freshError ctor msg) caps).slot
        = orderedJoin (caps.map (renderCapture alive))
      ∧ pairCount (chainAll (freshError ctor msg) caps).slot = caps.length - 1 := by
  match caps with
  | c :: cs =>
    have hfirst : (ChainStack (freshError ctor msg) c).slot = ChainData.holderV c :=
      ChainStack_fresh ctor msg c
    have hne : (ChainStack (freshError ctor msg) c).slot ≠ ChainData.undef := by
      rw [hfirst]; intro hx; cases hx
    have hslot : (chainAll (freshError ctor msg) (c :: cs)).slot
        = cs.foldl (fun d x => ChainData.pairV (ChainData.holderV x) d) (ChainData.holderV c) := by
      have hstep : chainAll (freshError ctor msg) (c :: cs)
          = chainAll (ChainStack (freshError ctor msg) c) cs := by simp [chainAll]
      rw [hstep, chainAll_slot_of_ne cs _ hne, hfirst]
    constructor
    · rw [hslot, render_pairFold]
      simp only [orderedJoin, RenderErrorStack, List.map_cons, List.map_map]
      rfl
    · rw [hslot, pairCount_fold]
      simp [pairCount]

/-- Witness for C1 at two concrete captures. -/
theorem c1_chain_render_ordered_witness :
    2 ≤ ([⟨0, [⟨lit "f", lit "a.js", 1, 2, false, 7⟩]⟩, ⟨1, []⟩] : List Capture).length
    ∧ (RenderErrorStack (fun _ => true)
          (chainAll (freshError (lit "Error") (lit "m"))
            [⟨0, [⟨lit "f", lit "a.js", 1, 2, false, 7⟩]⟩, ⟨1, []⟩]).slot
        = orderedJoin
            (([⟨0, [⟨lit "f", lit "a.js", 1, 2, false, 7⟩]⟩, ⟨1, []⟩] : List Capture).map
              (renderCapture (fun _ => true)))
      ∧ pairCount
          (chainAll (freshError (lit "Error") (lit "m"))
            [⟨0, [⟨lit "f", lit "a.js", 1, 2, false, 7⟩]⟩, ⟨1, []⟩]).slot
        = ([⟨0, [⟨lit "f", lit "a.js", 1, 2, false, 7⟩]⟩, ⟨1, []⟩] : List Capture).length - 1) :=
  ⟨by decide, c1_chain_render_ordered (lit "Error") (lit "m") (fun _ => true) _ (by decide)⟩

/-- C4: a chain call on an error whose hidden slot is empty falls back
to the native stack trace (wrapped as a holder) as the older half of
the new pair, else to a plain string `"stack"` property as the older
half, and attaches the capture alone as a single segment when neither
exists. -/
theorem c4_empty_slot_cases (e : ErrorState) (c : Capture)
    (h : e.slot = ChainData.undef) :
    (ChainStack e c).slot = c4ClaimedSlot e c := by
  obtain ⟨ctor, msg, slot, ns, sp, acc⟩ := e
  dsimp only at h
  subst h
  cases ns <;> cases sp <;> rfl

/-- Witness for C4 at a concrete error carrying a native stack. -/
theorem c4_empty_slot_cases_witness :
    (({ constructorName := lit "Error", message := lit "m", slot := ChainData.undef,
        nativeStack := some ⟨3, []⟩, stackProp := StackProperty.undefP,
        stackAccessor := none } : ErrorState).slot = ChainData.undef)
    ∧ (ChainStack
        { constructorName := lit "Error", message := lit "m", slot := ChainData.undef,
          nativeStack := some ⟨3, []⟩, stackProp := StackProperty.undefP,
          stackAccessor := none } ⟨4, []⟩).slot
      = c4ClaimedSlot
          { constructorName := lit "Error", message := lit "m", slot := ChainData.undef,
            nativeStack := some ⟨3, []⟩, stackProp := StackProperty.undefP,
            stackAccessor := none } ⟨4, []⟩ :=
  ⟨rfl, c4_empty_slot_cases _ ⟨4, []⟩ rfl⟩

/-- C5: every read of the `"stack"` property recomputes the constructor
name, the literal `": "`, the message as it is at read time, and the
rendered chain data; mutating the message therefore changes future
reads while the trace body after the message stays the rendering of the
unchanged slot. -/
theorem c5_message_read_time (alive : Nat → Bool) (e : ErrorState) (m2 : List Char) :
    ErrorStackGetter alive { e with message := m2 }
        = e.constructorName ++ lit ": " ++ (m2 ++ RenderErrorStack alive e.slot)
    ∧ (ErrorStackGetter alive { e with message := m2 }).drop
          (e.constructorName.length + (lit ": ").length + m2.length)
        = RenderErrorStack alive e.slot := by
  constructor
  · rfl
  · show ((e.constructorName ++ lit ": ") ++ (m2 ++ RenderErrorStack alive e.slot)).drop
        (e.constructorName.length + (lit ": ").length + m2.length)
      = RenderErrorStack alive e.slot
    rw [← List.append_assoc]
    have hlen : (e.constructorName ++ lit ": " ++ m2).length
        = e.constructorName.length + (lit ": ").length + m2.length := by
      simp [List.length_append]
      omega
    rw [← hlen, List.drop_left]

/-- C6: both public operations install the hidden chain data and the
`"stack"` accessor together through the one combined installer
`AttachStackGetter`; neither ever stores chain data without also
defining the accessor. -/
theorem c6_installed_together (e : ErrorState) (c : Capture) :
    AttachStack e c = AttachStackGetter e (AttachStack e c).slot
    ∧ ChainStack e c = AttachStackGetter e (ChainStack e c).slot
    ∧ (AttachStack e c).stackAccessor.isSome = true
    ∧ (ChainStack e c).stackAccessor.isSome = true
    ∧ (AttachStack e c).slot ≠ ChainData.undef
    ∧ (ChainStack e c).slot ≠ ChainData.undef := by
  obtain ⟨ctor, msg, slot, ns, sp, acc⟩ := e
  cases slot <;> cases ns <;> cases sp <;>
    exact ⟨rfl, rfl, rfl, rfl,
      fun hx => ChainData.noConfusion hx, fun hx => ChainData.noConfusion hx⟩

/-- C7 counterexample: the installer passes only `DontEnum` to
`SetAccessor`, so the installed `"stack"` accessor is configurable —
the claim's `configurable:false` fails at this concrete install. -/
theorem c7_configurable_counterexample :
    ((AttachStack
        { constructorName := lit "Error", message := lit "m", slot := ChainData.undef,
          nativeStack := none, stackProp := StackProperty.undefP, stackAccessor := none }
        ⟨0, []⟩).stackAccessor.isSome = true)
    ∧ accessorSatisfies
        (AttachStack
          { constructorName := lit "Error", message := lit "m", slot := ChainData.undef,
            nativeStack := none, stackProp := StackProperty.undefP, stackAccessor := none }
          ⟨0, []⟩)
        (fun a => a.configurable) = true
    ∧ accessorSatisfies
        (AttachStack
          { constructorName := lit "Error", message := lit "m", slot := ChainData.undef,
            nativeStack := none, stackProp := StackProperty.undefP, stackAccessor := none }
          ⟨0, []⟩)
        c7ClaimedAccessor = false := by
  refine ⟨rfl, ?_, ?_⟩ <;> decide

/-- C7 amended: every install defines the `"stack"` property as an
accessor with no setter and `DontEnum` set — non-enumerable — but
without `DontDelete`, so the property remains configurable. -/
theorem c7_accessor_amended (e : ErrorState) (d : ChainData) (c : Capture) :
    accessorSatisfies (AttachStackGetter e d) c7AmendedAccessor = true
    ∧ accessorSatisfies (AttachStack e c) c7AmendedAccessor = true
    ∧ accessorSatisfies (ChainStack e c) c7AmendedAccessor = true := by
  obtain ⟨ctor, msg, slot, ns, sp, acc⟩ := e
  refine ⟨rfl, rfl, ?_⟩
  cases slot <;> cases ns <;> cases sp <;> rfl

/-- C8: a segment whose source context has been destroyed renders as
the empty string, and adjacent boundary markers and surviving segments
still render correctly around it. -/
theorem c8_stale_context (alive : Nat → Bool) (cap : Capture) (d : ChainData)
    (h : alive cap.ctx = false) :
    RenderErrorStack alive (ChainData.holderV cap) = []
    ∧ RenderErrorStack alive (ChainData.pairV (ChainData.holderV cap) d)
        = RenderErrorStack alive d ++ boundaryMarker
    ∧ RenderErrorStack alive (ChainData.pairV d (ChainData.holderV cap))
        = boundaryMarker ++ RenderErrorStack alive d := by
  have hc : renderCapture alive cap = [] := by simp [renderCapture, h]
  refine ⟨hc, ?_, ?_⟩
  · simp [RenderErrorStack, hc]
  · simp [RenderErrorStack, hc]

/-- Witness for C8 with a destroyed context and a surviving
pre-rendered string segment. -/
theorem c8_stale_context_witness :
    ((fun _ => false) (Capture.ctx ⟨0, []⟩) = false)
    ∧ (RenderErrorStack (fun _ => false) (ChainData.holderV ⟨0, []⟩) = []
      ∧ RenderErrorStack (fun _ => false)
            (ChainData.pairV (ChainData.holderV ⟨0, []⟩) (ChainData.strV (lit "    x")))
          = RenderErrorStack (fun _ => false) (ChainData.strV (lit "    x")) ++ boundaryMarker
      ∧ RenderErrorStack (fun _ => false)
            (ChainData.pairV (ChainData.strV (lit "    x")) (ChainData.holderV ⟨0, []⟩))
          = boundaryMarker ++ RenderErrorStack (fun _ => false) (ChainData.strV (lit "    x"))) :=
  ⟨rfl, c8_stale_context (fun _ => false) ⟨0, []⟩ (ChainData.strV (lit "    x")) rfl⟩

/-- C9: the chain renderer is total, and a slot value of unexpected
shape — neither string, nor pair, nor capture holder — renders as the
empty string, as does the `undefined` of an unset slot. -/
theorem c9_malformed_renders_empty (alive : Nat → Bool) :
    RenderErrorStack alive ChainData.malformed = []
    ∧ RenderErrorStack alive ChainData.undef = [] :=
  ⟨rfl, rfl⟩

/-- C10: a capture with zero frames renders as the empty string, so a
stack read of an error holding only that capture returns exactly the
constructor name, `": "`, and the message, with nothing after them. -/
theorem c10_empty_capture (alive : Nat → Bool) (e : ErrorState) (cap : Capture)
    (h : cap.frames = []) :
    RenderSingleStack cap.frames = []
    ∧ ErrorStackGetter alive { e with slot := ChainData.holderV cap }
        = e.constructorName ++ lit ": " ++ e.message := by
  have hr : RenderErrorStack alive (ChainData.holderV cap) = [] := by
    show renderCapture alive cap = []
    unfold renderCapture
    rw [h]
    cases alive cap.ctx <;> rfl
  constructor
  · rw [h]; rfl
  · show e.constructorName ++ lit ": "
        ++ (e.message ++ RenderErrorStack alive (ChainData.holderV cap))
      = e.constructorName ++ lit ": " ++ e.message
    rw [hr, List.append_nil]

/-- Witness for C10 at a concrete empty capture. -/
theorem c10_empty_capture_witness :
    (Capture.frames ⟨5, []⟩ = [])
    ∧ (RenderSingleStack (Capture.frames ⟨5, []⟩) = []
      ∧ ErrorStackGetter (fun _ => true)
            { freshError (lit "TypeError") (lit "oops") with slot := ChainData.holderV ⟨5, []⟩ }
          = (freshError (lit "TypeError") (lit "oops")).constructorName ++ lit ": "
              ++ (freshError (lit "TypeError") (lit "oops")).message) :=
  ⟨rfl, c10_empty_capture (fun _ => true) (freshError (lit "TypeError") (lit "oops")) ⟨5, []⟩ rfl⟩

/-- A frame's name fields are free of NUL characters, so reading them
as C strings loses nothing. -/
def frameNulFree (f : StackFrame) : Bool :=
  !(decide (nul ∈ f.functionName)) && !(decide (nul ∈ f.scriptName))

/-- On a frame whose name fields contain no NUL, the source formatting
agrees with the amended claim C2 templates. -/
theorem renderFrame_eq_amended (f : StackFrame) (hok : frameNulFree f = true) :
    renderFrame f = c2AmendedFrameLine f := by
  obtain ⟨fn, sn, ln, col, ev, sid⟩ := f
  simp only [frameNulFree, Bool.and_eq_true, Bool.not_eq_true',
    decide_eq_false_iff_not] at hok
  have hfn : cstr fn = fn := cstr_eq_self hok.1
  have hsn : cstr sn = sn := cstr_eq_self hok.2
  have e1 : lit "\n    at [eval]:" = lit "\n    at " ++ lit "[eval]:" := by decide
  have e2 : lit "\n    at [eval] (" = lit "\n    at " ++ lit "[eval] (" := by decide
  cases ev with
  | true =>
    by_cases hsid : sid = kNoScriptIdInfo <;>
      simp [renderFrame, c2AmendedFrameLine, hsid, hfn, hsn, e1, e2, List.append_assoc]
  | false =>
    by_cases hn : fn = []
    · subst hn
      simp [renderFrame, c2AmendedFrameLine, hsn, List.append_assoc]
    · have hlen : ¬ fn.length = 0 := fun hx => hn (List.length_eq_zero.mp hx)
      simp [renderFrame, c2AmendedFrameLine, hn, hlen, hfn, hsn, List.append_assoc]

/-- C2 counterexample: a non-synthetic frame with a function name is
rendered with a space between the function name and the opening
parenthesis, while the claim's template has none. -/
theorem c2_space_counterexample :
    RenderSingleStack [⟨lit "foo", lit "a.js", 1, 2, false, 7⟩]
      ≠ c2ClaimedRender [⟨lit "foo", lit "a.js", 1, 2, false, 7⟩] := by
  decide

/-- C2 amended: on frames whose name fields are NUL-free, rendering a
single capture produces exactly one line per frame in original order,
each line prefixed by a newline, four spaces and `at `, chosen by the
claim's four cases, with a space before the opening parenthesis in the
named-function case. -/
theorem c2_render_frames_amended (frames : List StackFrame)
    (h : frames.all frameNulFree = true) :
    RenderSingleStack frames = c2AmendedRender frames := by
  rw [RenderSingleStack_eq_flatten]
  unfold c2AmendedRender
  congr 1
  have h' := List.all_eq_true.mp h
  exact List.map_congr_left fun f hf => renderFrame_eq_amended f (h' f hf)

/-- Witness for the amended C2 exercising all four formatting cases. -/
theorem c2_render_frames_amended_witness :
    ([⟨lit "foo", lit "a.js", 1, 2, false, 7⟩, ⟨[], lit "b.js", 3, 4, false, 8⟩,
        ⟨[], lit "c.js", 5, 6, true, 0⟩, ⟨[], lit "d.js", 7, 8, true, 9⟩] :
      List StackFrame).all frameNulFree = true
    ∧ RenderSingleStack
          [⟨lit "foo", lit "a.js", 1, 2, false, 7⟩, ⟨[], lit "b.js", 3, 4, false, 8⟩,
            ⟨[], lit "c.js", 5, 6, true, 0⟩, ⟨[], lit "d.js", 7, 8, true, 9⟩]
        = c2AmendedRender
            [⟨lit "foo", lit "a.js", 1, 2, false, 7⟩, ⟨[], lit "b.js", 3, 4, false, 8⟩,
              ⟨[], lit "c.js", 5, 6, true, 0⟩, ⟨[], lit "d.js", 7, 8, true, 9⟩] :=
  ⟨by decide, c2_render_frames_amended _ (by decide)⟩

/-- The four indexed character tests of the source agree with the
claim's phrase "begins with four literal space characters". -/
theorem startsWithFourSpaces_iff (s : List Char) :
    startsWithFourSpaces s = true ↔ s.take 4 = lit "    " := by
  rcases s with _ | ⟨a, _ | ⟨b, _ | ⟨c, _ | ⟨d, t⟩⟩⟩⟩ <;>
    simp [startsWithFourSpaces, lit, nul, List.getD, and_assoc]

/-- On a NUL-free string the `strchr` scan finds exactly the suffix
starting at the first newline. -/
theorem strchrNewline_of_not_nul (s : List Char) (h : nul ∉ s) :
    strchrNewline s
      = if '\n' ∈ s then some (s.dropWhile (fun c => c != '\n')) else none := by
  induction s with
  | nil => rfl
  | cons c cs ih =>
    simp only [List.mem_cons, not_or] at h
    have hcn : ¬ c = nul := fun hx => h.1 hx.symm
    by_cases hc : c = '\n'
    · subst hc
      simp [strchrNewline, hcn, List.dropWhile_cons]
    · have hcb : (c != '\n') = true := by simp [bne, hc]
      simp only [strchrNewline, if_neg hcn, if_neg hc, ih h.2, List.dropWhile_cons, hcb,
        if_true, List.mem_cons]
      have hc2 : ¬ ('\n' = c) := fun hx => hc hx.symm
      by_cases hm : '\n' ∈ cs <;> simp [hm, hc2]

/-- C3 counterexample: the code reads the chain string as a
NUL-terminated C string, so a NUL before the first newline makes the
`strchr` scan miss the newline and the renderer return empty, while the
claim prescribes the substring from the first newline. -/
theorem c3_nul_counterexample :
    renderStringData (nul :: lit "\nx") ≠ c3ClaimedRender (nul :: lit "\nx") := by
  decide

/-- C3 amended: for every chain-data string free of NUL characters, a
leading four-space indent passes the string through unchanged;
otherwise the substring starting at the first newline is returned, or
the empty string when the string has no newline. -/
theorem c3_string_render_amended (s : List Char) (h : nul ∉ s) :
    renderStringData s = c3ClaimedRender s := by
  unfold renderStringData c3ClaimedRender
  by_cases h4 : startsWithFourSpaces s = true
  · rw [if_pos h4, if_pos ((startsWithFourSpaces_iff s).mp h4)]
  · have h4f : startsWithFourSpaces s = false := by
      cases hx : startsWithFourSpaces s
      · rfl
      · exact absurd hx h4
    have h4' : ¬ (s.take 4 = lit "    ") :=
      fun hx => h4 ((startsWithFourSpaces_iff s).mpr hx)
    rw [h4f, if_neg h4', strchrNewline_of_not_nul s h]
    by_cases hm : '\n' ∈ s
    · have hsub : nul ∉ s.dropWhile (fun c => c != '\n') :=
        fun hx => h ((List.dropWhile_sublist _).subset hx)
      simp [hm, cstr_eq_self hsub]
    · simp [hm]

/-- Witness for the amended C3 at the three concrete shapes. -/
theorem c3_string_render_amended_witness :
    (nul ∉ lit "Error: x\n    at f (a.js:1:2)"
      ∧ renderStringData (lit "Error: x\n    at f (a.js:1:2)")
          = c3ClaimedRender (lit "Error: x\n    at f (a.js:1:2)"))
    ∧ (nul ∉ lit "    prerendered"
      ∧ renderStringData (lit "    prerendered") = c3ClaimedRender (lit "    prerendered"))
    ∧ (nul ∉ lit "message only"
      ∧ renderStringData (lit "message only") = c3ClaimedRender (lit "message only")) :=
  ⟨⟨by decide, c3_string_render_amended _ (by decide)⟩,
    ⟨by decide, c3_string_render_amended _ (by decide)⟩,
    ⟨by decide, c3_string_render_amended _ (by decide)⟩⟩
